import Mathlib

/-!
Verification development for the practice-server lifecycle and
error-classification core.

The definitions below are a shallow embedding of the TypeScript sources:

* `src/app/types/error.ts`   — the error taxonomy types;
* `src/app/error/appError.ts` — the `appError` class, its factory
  constructors and `appError.fromUnknown` (the classifier);
* `src/app/utils/errors.ts`  — the duck-typed Mongo/JWT guards and the
  `formatMongo*` helpers;
* `src/app/middleware/globalErrorHandler.ts` — the request-level error
  handler;
* `server.ts` — `classifyDatabaseError`, `connectDatabase` (bounded retry
  with exponential backoff) and `gracefulShutdown` (the shutdown
  orchestrator).

JavaScript values reaching the error handler are modelled by `JsValue`:
an object with the optional duck-typed fields the handlers inspect, or a
primitive.  Machine integers do not overflow in any of the embedded code
(delays and status codes stay far below 2^53), so `Nat`/`Int` are used
directly.  Real time is modelled by giving each asynchronous close
operation an abstract settle instant; the `Promise.race` between the
deadline timer and `Promise.allSettled` is decided by comparing instants.
-/

/-- Error categories, from `ErrorCategory` in src/app/types/error.ts. -/
inductive ErrorCategory
  | VALIDATION
  | AUTHENTICATION
  | AUTHORIZATION
  | DATABASE
  | EXTERNAL_SERVICE
  | NOT_FOUND
  | BUSINESS_LOGIC
  | INTERNAL_SERVER
  | RATE_LIMITING
  | NETWORK
  | UNKNOWN
  deriving DecidableEq, Repr

/-- Error severity levels, from `ErrorSeverity` in src/app/types/error.ts. -/
inductive ErrorSeverity
  | LOW
  | MEDIUM
  | HIGH
  | CRITICAL
  deriving DecidableEq, Repr

/-- Whether a severity is at least `MEDIUM` (spec: "severity is at least medium"). -/
def ErrorSeverity.atLeastMedium : ErrorSeverity → Bool
  | .LOW => false
  | _ => true

/-- One flattened schema-validation failure, from `ValidationErrorDetail`
in src/app/types/error.ts (`value: unknown` is modelled as its string form). -/
structure ValidationErrorDetail where
  field : String
  message : String
  value : String
  deriving DecidableEq, Repr

/-- A native JavaScript `Error` object as the embedding carries it: its
`name`, `message`, and the optional `details` list that
`formatMongoValidationError` attaches.  Used for `originalError` chaining. -/
structure JsError where
  name : String
  message : String
  details : Option (List ValidationErrorDetail)
  deriving DecidableEq, Repr

/-- Error context metadata (`ErrorContext` in src/app/types/error.ts): an
open mapping of string keys to values, modelled as an association list of
strings in insertion order. -/
abbrev ErrCtx : Type := List (String × String)

/-- The `appError` class of src/app/error/appError.ts.  The `name` property
is always the string "AppError" and the `timestamp` is the wall-clock
creation instant; neither varies in the embedded code paths, so they are
not carried.  Structural equality stands in for JavaScript instance
identity: the pass-through branches literally return the received value. -/
structure appError where
  message : String
  category : Option ErrorCategory
  severity : ErrorSeverity
  statusCode : Nat
  context : ErrCtx
  originalError : Option JsError
  isOperational : Bool
  code : Option String
  deriving DecidableEq, Repr

/-- Constructor parameters (`AppErrorParams` in src/app/types/error.ts);
`none` models an absent/undefined optional parameter. -/
structure AppErrorParams where
  message : String
  category : Option ErrorCategory
  severity : Option ErrorSeverity
  statusCode : Option Nat
  context : Option ErrCtx
  originalError : Option JsError
  isOperational : Option Bool
  code : Option String
  deriving Repr

/-- The `appError` constructor (src/app/error/appError.ts, lines 43-83):
defaults are severity MEDIUM, statusCode 500, context `{}`, and
isOperational `true`. -/
def appError.ofParams (p : AppErrorParams) : appError :=
  { message := p.message
    category := p.category
    severity := p.severity.getD ErrorSeverity.MEDIUM
    statusCode := p.statusCode.getD 500
    context := p.context.getD []
    originalError := p.originalError
    isOperational := p.isOperational.getD true
    code := p.code }

/-- Factory `appError.validation`: VALIDATION / 400 / VALIDATION_ERROR. -/
def appError.validation (message : String) (context : Option ErrCtx)
    (originalError : Option JsError) : appError :=
  appError.ofParams
    ⟨message, some .VALIDATION, none, some 400, context, originalError, none,
      some "VALIDATION_ERROR"⟩

/-- Factory `appError.authentication`: AUTHENTICATION / 401 /
AUTHENTICATION_ERROR (default message "Authentication required"). -/
def appError.authentication (message : String) (context : Option ErrCtx)
    (originalError : Option JsError) : appError :=
  appError.ofParams
    ⟨message, some .AUTHENTICATION, none, some 401, context, originalError, none,
      some "AUTHENTICATION_ERROR"⟩

/-- Factory `appError.authorization`: AUTHORIZATION / 403 /
AUTHORIZATION_ERROR (default message "Insufficient permissions"). -/
def appError.authorization (message : String) (context : Option ErrCtx)
    (originalError : Option JsError) : appError :=
  appError.ofParams
    ⟨message, some .AUTHORIZATION, none, some 403, context, originalError, none,
      some "AUTHORIZATION_ERROR"⟩

/-- Factory `appError.notFound`: NOT_FOUND / 404 / RESOURCE_NOT_FOUND,
with message `"{resource} not found"`. -/
def appError.notFound (resource : String) (context : Option ErrCtx)
    (originalError : Option JsError) : appError :=
  appError.ofParams
    ⟨s!"{resource} not found", some .NOT_FOUND, none, some 404, context,
      originalError, none, some "RESOURCE_NOT_FOUND"⟩

/-- Factory `appError.database`: DATABASE / HIGH / 500 / DATABASE_ERROR.
Note that it does not pass `isOperational`, so the constructor default
`true` applies. -/
def appError.database (message : String) (context : Option ErrCtx)
    (originalError : Option JsError) : appError :=
  appError.ofParams
    ⟨message, some .DATABASE, some .HIGH, some 500, context, originalError, none,
      some "DATABASE_ERROR"⟩

/-- Factory `appError.conflict`: BUSINESS_LOGIC / 409 / CONFLICT_ERROR. -/
def appError.conflict (message : String) (context : Option ErrCtx)
    (originalError : Option JsError) : appError :=
  appError.ofParams
    ⟨message, some .BUSINESS_LOGIC, none, some 409, context, originalError, none,
      some "CONFLICT_ERROR"⟩

/-- Factory `appError.rateLimit`: RATE_LIMITING / 429 / RATE_LIMIT_EXCEEDED
(default message "Too many requests"). -/
def appError.rateLimit (message : String) (context : Option ErrCtx)
    (originalError : Option JsError) : appError :=
  appError.ofParams
    ⟨message, some .RATE_LIMITING, none, some 429, context, originalError, none,
      some "RATE_LIMIT_EXCEEDED"⟩

/-- Factory `appError.internal`: INTERNAL_SERVER / HIGH / 500 /
INTERNAL_SERVER_ERROR.  Like `database`, it does not pass `isOperational`,
so the constructor default `true` applies. -/
def appError.internal (message : String) (context : Option ErrCtx)
    (originalError : Option JsError) : appError :=
  appError.ofParams
    ⟨message, some .INTERNAL_SERVER, some .HIGH, some 500, context, originalError,
      none, some "INTERNAL_SERVER_ERROR"⟩

/-- The value of a dynamic `code` property: a number (Mongo server codes)
or a string (`appError.code`).  A strict-equality check `code === 11000`
succeeds only on the numeric form. -/
inductive JsCode
  | num (n : Int)
  | str (s : String)
  deriving DecidableEq, Repr

/-- One sub-error of a Mongoose `ValidationError.errors` mapping. -/
structure MongoSubError where
  path : String
  message : String
  value : String
  deriving DecidableEq, Repr

/-- A JavaScript object as the error handlers duck-type it: each field the
handlers may read is optional (absent = `none`), and the `instanceof`
facts the handlers test are carried as flags.  An `appError` instance
additionally carries its payload. -/
structure JsObject where
  name : Option String
  code : Option JsCode
  message : Option String
  keyValue : Option (List (String × String))
  errors : Option (List (String × MongoSubError))
  details : Option (List ValidationErrorDetail)
  path : Option String
  value : Option String
  hasBodyField : Bool
  isErrorInstance : Bool
  isSyntaxErrorInstance : Bool
  appPayload : Option appError
  modelName : Option String
  deriving DecidableEq, Repr

/-- An arbitrary thrown JavaScript value: an object, or a primitive whose
`String(value)` form is `display`. -/
inductive JsValue
  | obj (o : JsObject)
  | prim (display : String)
  deriving DecidableEq, Repr

/-- Whether a value is an `appError` instance (`appError.isAppError`). -/
def JsValue.isAppErrorVal : JsValue → Bool
  | .obj o => o.appPayload.isSome
  | .prim _ => false

/-- Whether a value is a native `Error` instance (`error instanceof Error`). -/
def JsValue.isErrorInstanceVal : JsValue → Bool
  | .obj o => o.isErrorInstance
  | .prim _ => false

/-- View of a `JsObject` as the native `Error` it is (`name` defaults to
"Error", `message` to the empty string, as on a bare object). -/
def JsObject.asJsError (o : JsObject) : JsError :=
  ⟨o.name.getD "Error", o.message.getD "", o.details⟩

/-- Re-inject a native `Error` as a thrown value (used for the formatted
errors the handler builds and then classifies). -/
def JsError.toValue (e : JsError) : JsValue :=
  .obj ⟨some e.name, none, some e.message, none, none, e.details, none, none,
    false, true, false, none, none⟩

/-- Re-inject an `appError` instance as a thrown value: `name` is
"AppError", the `code` property is its string code, and it is an `Error`
instance carrying itself as payload. -/
def JsValue.ofApp (e : appError) : JsValue :=
  .obj ⟨some "AppError", e.code.map JsCode.str, some e.message, none, none, none,
    none, none, false, true, false, some e, none⟩

/-- The classifier `appError.fromUnknown` (src/app/error/appError.ts,
lines 362-392): an `appError` passes through unchanged; a native `Error`
is wrapped as UNKNOWN / MEDIUM / 500 / UNKNOWN_ERROR with
`isOperational = false`, preserving its message and chaining it as
`originalError`; anything else becomes the same shape with the fixed
message "An unknown error occurred" and no cause.  The source function has
no throwing operation: its embedding is a total function. -/
def appError.fromUnknown (v : JsValue) (context : Option ErrCtx) : appError :=
  match v with
  | .obj o =>
    match o.appPayload with
    | some e => e
    | none =>
      if o.isErrorInstance then
        appError.ofParams
          ⟨o.message.getD "", some .UNKNOWN, some .MEDIUM, some 500, context,
            some o.asJsError, some false, some "UNKNOWN_ERROR"⟩
      else
        appError.ofParams
          ⟨"An unknown error occurred", some .UNKNOWN, some .MEDIUM, some 500,
            context, none, some false, some "UNKNOWN_ERROR"⟩
  | .prim _ =>
      appError.ofParams
        ⟨"An unknown error occurred", some .UNKNOWN, some .MEDIUM, some 500,
          context, none, some false, some "UNKNOWN_ERROR"⟩

/-- Guard `isMongoError` (src/app/utils/errors.ts): a non-null object with
a `code` or `name` property. -/
def isMongoError : JsValue → Bool
  | .obj o => o.code.isSome || o.name.isSome
  | .prim _ => false

/-- Guard `isJWTError` (src/app/utils/errors.ts): a non-null object whose
`name` property is a string. -/
def isJWTError : JsValue → Bool
  | .obj o => o.name.isSome
  | .prim _ => false

/-- Helper `formatMongoDuplicateKeyError` (src/app/utils/errors.ts): take
the first key of `keyValue` and its value (a missing or empty `keyValue`
yields the JavaScript `undefined`, rendered "undefined" by the template
literal) and build an `Error` named DuplicateKeyError whose message names
the field.  JavaScript object keys are unique, so `keyValue[firstKey]` is
the first entry's value. -/
def formatMongoDuplicateKeyError (o : JsObject) : JsError :=
  let kv := o.keyValue.getD []
  let fieldName := (kv.head?.map Prod.fst).getD "undefined"
  let fieldValue := (kv.head?.map Prod.snd).getD "undefined"
  ⟨"DuplicateKeyError",
    s!"Duplicate value '{fieldValue}' for field '{fieldName}'. This value already exists.",
    none⟩

/-- Helper `formatMongoCastError` (src/app/utils/errors.ts): build an
`Error` named CastError from the offending `path` and `value`. -/
def formatMongoCastError (o : JsObject) : JsError :=
  let p := o.path.getD "undefined"
  let v := o.value.getD "undefined"
  ⟨"CastError", s!"Invalid {p}: {v}. Please provide a valid value.", none⟩

/-- Helper `formatMongoValidationError` (src/app/utils/errors.ts): flatten
every sub-error of the `errors` mapping (in insertion order, as
`Object.values` does) into `{field, message, value}` entries, and attach
them as `details` of an `Error` named ValidationError with the fixed
message "Validation failed". -/
def formatMongoValidationError (o : JsObject) : JsError :=
  let entries := (o.errors.getD []).map fun p =>
    ValidationErrorDetail.mk p.2.path p.2.message p.2.value
  ⟨"ValidationError", "Validation failed", some entries⟩

/-- Request metadata the handler reads (`req.path`, `req.method`, the ISO
timestamp it takes at classification time, `req.ip`,
`req.get('User-Agent')`). -/
structure RequestMeta where
  path : String
  method : String
  timestamp : String
  ip : String
  userAgent : String
  deriving DecidableEq, Repr

/-- The request-level handler `globalErrorHandler`
(src/app/middleware/globalErrorHandler.ts): the branches in source order —
Mongo duplicate key (code strictly equal to the number 11000), Mongo
CastError, Mongo ValidationError, the two JWT failures, body-parse
SyntaxError, `appError` pass-through, and the final `fromUnknown`
fallback.  The result is the `appError` handed to `sendErrorResponse`. -/
def globalErrorHandler (error : JsValue) (req : RequestMeta) : appError :=
  let baseCtx : ErrCtx :=
    [("path", req.path), ("method", req.method), ("timestamp", req.timestamp)]
  match error with
  | .prim s =>
      appError.fromUnknown (.prim s)
        (some (baseCtx ++ [("ip", req.ip), ("userAgent", req.userAgent)]))
  | .obj o =>
    if (o.code.isSome || o.name.isSome) = true ∧
        (o.code = some (JsCode.num 11000) ∨
          (o.name = some "MongoError" ∧ o.code = some (JsCode.num 11000))) then
      appError.fromUnknown (formatMongoDuplicateKeyError o).toValue (some baseCtx)
    else if (o.code.isSome || o.name.isSome) = true ∧ o.name = some "CastError" then
      appError.fromUnknown (formatMongoCastError o).toValue
        (some [("path", req.path), ("method", req.method),
          ("resource", o.modelName.getD "Unknown"), ("timestamp", req.timestamp)])
    else if (o.code.isSome || o.name.isSome) = true ∧
        o.name = some "ValidationError" then
      appError.fromUnknown (formatMongoValidationError o).toValue (some baseCtx)
    else if o.name.isSome = true ∧ o.name = some "JsonWebTokenError" then
      appError.authentication "Invalid token" (some baseCtx) (some o.asJsError)
    else if o.name.isSome = true ∧ o.name = some "TokenExpiredError" then
      appError.authentication "Token expired" (some baseCtx) (some o.asJsError)
    else if o.isSyntaxErrorInstance = true ∧ o.hasBodyField = true then
      appError.validation "Invalid JSON in request body" (some baseCtx)
        (some o.asJsError)
    else
      match o.appPayload with
      | some e => e
      | none =>
          appError.fromUnknown (.obj o)
            (some (baseCtx ++ [("ip", req.ip), ("userAgent", req.userAgent)]))

/-- Which shape `classifyDatabaseError` recognised. -/
inductive DbErrKind
  | timeout
  | network
  | auth
  | generic
  deriving DecidableEq, Repr

/-- Modelled from the spec: the typed database connection errors of
src/app/types/database.errors are imported by server.ts but the file is
not under src/.  Per the spec (section 4.3) a classified connection error
carries the 1-based attempt count in its context, so the model records
`attemptCount = retries + 1` whenever the constructor is given a 0-based
retry index, and no count when it is not. -/
structure DatabaseConnError where
  kind : DbErrKind
  message : String
  code : String
  attemptCount : Option Nat
  deriving DecidableEq, Repr

/-- Modelled from the spec: the `DatabaseTimeoutError(message, retries)`
constructor of the missing src/app/types/database.errors. -/
def DatabaseTimeoutError (message : String) (retries : Nat) : DatabaseConnError :=
  ⟨.timeout, message, "DATABASE_TIMEOUT_ERROR", some (retries + 1)⟩

/-- Modelled from the spec: the `DatabaseConnectionError(message, code?,
retries?)` constructor of the missing src/app/types/database.errors
(server.ts calls it with one, two or three arguments). -/
def DatabaseConnectionError (message : String) (code : Option String)
    (retries : Option Nat) : DatabaseConnError :=
  ⟨.generic, message, code.getD "DATABASE_CONNECTION_ERROR",
    retries.map fun r => r + 1⟩

/-- Modelled from the spec: the `DatabaseAuthError(message)` constructor of
the missing src/app/types/database.errors.  server.ts passes it only a
message — no retry index — so it carries no attempt count. -/
def DatabaseAuthError (message : String) : DatabaseConnError :=
  ⟨.auth, message, "DATABASE_AUTH_ERROR", none⟩

/-- A raw failure of a connection attempt, as `classifyDatabaseError`
duck-types it: a `mongoose.Error` instance (with its `name`, optional
numeric `code`, and `message`), some other `Error`, or a non-Error thrown
value whose `String(value)` form is `display`. -/
inductive RawDbError
  | mongooseErr (name : String) (code : Option Int) (message : String)
  | plainErr (message : String)
  | nonError (display : String)
  deriving DecidableEq, Repr

/-- The string the fallback branch interpolates:
`error instanceof Error ? error.message : String(error)`. -/
def RawDbError.displayMessage : RawDbError → String
  | .mongooseErr _ _ m => m
  | .plainErr m => m
  | .nonError s => s

/-- Whether a raw failure matches the authentication branch of
`classifyDatabaseError` (`MongoServerError` with code 18). -/
def RawDbError.isAuthShaped : RawDbError → Bool
  | .mongooseErr nm code _ =>
      if nm = "MongoServerError" ∧ code = some 18 then true else false
  | _ => false

/-- The classifier `classifyDatabaseError` (server.ts, lines 62-106):
mongoose server-selection/timeout errors become `DatabaseTimeoutError`,
network errors become a network-coded `DatabaseConnectionError`,
`MongoServerError` with code 18 becomes `DatabaseAuthError`, and anything
else falls back to a generic `DatabaseConnectionError`. -/
def classifyDatabaseError (error : RawDbError) (retries : Nat) :
    DatabaseConnError :=
  match error with
  | .mongooseErr nm code msg =>
    if nm = "MongoServerSelectionError" ∨ nm = "MongoTimeoutError" then
      DatabaseTimeoutError s!"Database timeout after {retries + 1} attempts: {msg}"
        retries
    else if nm = "MongoNetworkError" then
      DatabaseConnectionError s!"Network error connecting to database: {msg}"
        (some "DATABASE_NETWORK_ERROR") (some retries)
    else if nm = "MongoServerError" ∧ code = some 18 then
      DatabaseAuthError s!"Database authentication failed: {msg}"
    else
      DatabaseConnectionError
        s!"Database connection failed: {msg}"
        (some "DATABASE_CONNECTION_ERROR") (some retries)
  | e =>
      DatabaseConnectionError
        s!"Database connection failed: {e.displayMessage}"
        (some "DATABASE_CONNECTION_ERROR") (some retries)

/-- Observable trace of one `connectDatabase` run: how many attempts were
started, the backoff delays awaited between attempts (in order), and the
error thrown after exhaustion (`none` = the run returned successfully). -/
structure ConnectTrace where
  attemptsMade : Nat
  sleeps : List Nat
  threw : Option DatabaseConnError
  deriving DecidableEq, Repr

/-- The retry loop of `connectDatabase` (server.ts, lines 119-153), with
the environment abstracted as `attempts retries = none` when the attempt
with 0-based index `retries` succeeds and `some e` when it throws `e`.
`fuel` is the number of loop iterations left (`maxRetries - retries`); on
failure the error is classified, the delay `min(2000 * 2^retries, 10000)`
is awaited unless this was the final attempt, and the loop continues.
After exhaustion the last classified error is thrown (with a defensive
generic error if none was recorded). -/
def connectGo (attempts : Nat → Option RawDbError) (maxRetries : Nat) :
    Nat → Nat → Nat → Option DatabaseConnError → List Nat → ConnectTrace
  | 0, _, made, lastError, sleeps =>
      { attemptsMade := made
        sleeps := sleeps.reverse
        threw := some (lastError.getD (DatabaseConnectionError
          "Unknown error during database connection attempts" none none)) }
  | fuel + 1, retries, made, _lastError, sleeps =>
      match attempts retries with
      | none => { attemptsMade := made + 1, sleeps := sleeps.reverse, threw := none }
      | some e =>
        let cls := classifyDatabaseError e retries
        let delay := min (2000 * 2 ^ retries) 10000
        let sleeps' := if retries < maxRetries - 1 then delay :: sleeps else sleeps
        connectGo attempts maxRetries fuel (retries + 1) (made + 1) (some cls) sleeps'

/-- `connectDatabase` (server.ts): `maxRetries = 5`, starting at retry
index 0 with no recorded error. -/
def connectDatabase (attempts : Nat → Option RawDbError) : ConnectTrace :=
  connectGo attempts 5 5 0 0 none []

/-- One closeable subsystem's behaviour during shutdown: the abstract
instant at which its close settles, and `none` when it resolves or
`some m` when it rejects with an error whose message is `m`. -/
structure CloserBehavior where
  settleAt : Nat
  failMsg : Option String
  deriving DecidableEq, Repr

/-- The world `gracefulShutdown` observes: whether the HTTP server is
listening and whether the mongoose connection is not disconnected (these
decide which closers are registered), each closer's behaviour, and the
configured `SHUTDOWN_TIMEOUT`. -/
structure ShutdownWorld where
  serverListening : Bool
  dbConnected : Bool
  serverClose : CloserBehavior
  dbClose : CloserBehavior
  shutdownTimeoutMs : Nat
  deriving DecidableEq, Repr

/-- Terminal observation of one `gracefulShutdown` call.  `ignored` is the
idempotency no-op (a trigger while a shutdown is already in progress);
`earlyReturn` is the zero-closer path, which returns without exiting;
the other three are the spec's Completed / Failed / TimedOut outcomes. -/
inductive SdOutcome
  | ignored
  | earlyReturn
  | completed
  | failed
  | timedOut
  deriving DecidableEq, Repr

/-- Observable effects of one `gracefulShutdown` call: outcome, the log
lines written (emoji prefixes dropped), whether the deadline timer was
started by `setTimeout` and whether it was cleared again, whether close
was initiated on each resource, and the exit code passed to
`initiateShutdown` (`none` = the exit coordinator was never invoked).
The model has no cancellation effect at all: a close operation that has
been initiated is never interrupted, matching the source, where a lost
`Promise.race` merely stops being awaited. -/
structure ShutdownRun where
  outcome : SdOutcome
  logs : List String
  timerStarted : Bool
  timerCleared : Bool
  serverCloseCalled : Bool
  dbCloseCalled : Bool
  exitCode : Option Nat
  deriving DecidableEq, Repr

/-- The registered closers, in registration order (HTTP server first, then
the database connection), each as (settle instant, wrapped failure
message).  Failures are wrapped exactly as the source wraps them before
collection ("HTTP server close failed: ..." / "Database close failed: ..."). -/
def registeredClosers (w : ShutdownWorld) : List (Nat × Option String) :=
  (if w.serverListening then
    [(w.serverClose.settleAt,
      w.serverClose.failMsg.map fun m => s!"HTTP server close failed: {m}")]
  else []) ++
  (if w.dbConnected then
    [(w.dbClose.settleAt,
      w.dbClose.failMsg.map fun m => s!"Database close failed: {m}")]
  else [])

/-- The instant at which `Promise.allSettled` over the closers completes:
the latest settle instant. -/
def allSettledAt (w : ShutdownWorld) : Nat :=
  (registeredClosers w).foldl (fun a c => max a c.1) 0

/-- The wrapped messages of the closers that failed, in registration
order (what `Promise.allSettled` + the rejected filter collects). -/
def failedCloserMessages (w : ShutdownWorld) : List String :=
  (registeredClosers w).filterMap Prod.snd

/-- The orchestrator `gracefulShutdown` (server.ts, lines 199-312) as a
function of the observed world and the `isShuttingDown` flag, returning
its observable run and the flag's new value.  The flag is read and set
synchronously before the first suspension point, so under the
single-threaded cooperative scheduler any second trigger — concurrent or
later — observes `true`.  The deadline race is decided by instants: the
timer fires first exactly when the configured timeout is strictly below
the latest settle instant (a tie is resolved in favour of the settled
closers). -/
def gracefulShutdown (signal : String) (w : ShutdownWorld)
    (isShuttingDown : Bool) : ShutdownRun × Bool :=
  if isShuttingDown then
    ({ outcome := .ignored
       logs := [s!"Shutdown already in progress, ignoring {signal}"]
       timerStarted := false, timerCleared := false
       serverCloseCalled := false, dbCloseCalled := false
       exitCode := none }, true)
  else
    let sigLog := s!"{signal} received, initiating graceful shutdown..."
    let closers := registeredClosers w
    if closers = [] then
      ({ outcome := .earlyReturn
         logs := [sigLog, "No active connections to close"]
         timerStarted := true, timerCleared := false
         serverCloseCalled := false, dbCloseCalled := false
         exitCode := none }, true)
    else if w.shutdownTimeoutMs < allSettledAt w then
      ({ outcome := .timedOut
         logs := [sigLog, "Error during shutdown: Shutdown timeout exceeded",
           "Process exiting with code: 1", "Application terminated with errors"]
         timerStarted := true, timerCleared := true
         serverCloseCalled := w.serverListening, dbCloseCalled := w.dbConnected
         exitCode := some 1 }, true)
    else
      let errs := failedCloserMessages w
      if errs = [] then
        ({ outcome := .completed
           logs := [sigLog, "All shutdown operations completed successfully",
             "Graceful shutdown completed", "Process exiting with code: 0"]
           timerStarted := true, timerCleared := true
           serverCloseCalled := w.serverListening, dbCloseCalled := w.dbConnected
           exitCode := some 0 }, true)
      else
        let aggregated := "Shutdown completed with " ++ toString errs.length ++
          " error(s): " ++ String.intercalate ", " errs
        ({ outcome := .failed
           logs := [sigLog, "Error during shutdown: " ++ aggregated,
             "Process exiting with code: 1", "Application terminated with errors"]
           timerStarted := true, timerCleared := true
           serverCloseCalled := w.serverListening, dbCloseCalled := w.dbConnected
           exitCode := some 1 }, true)

/-- Two shutdown triggers in sequence against the same world, starting from
a fresh process (`isShuttingDown = false`): the pair of observable runs.
Under the single-threaded scheduler this also covers a second trigger that
arrives while the first sequence is still draining, because the flag is
set before the first suspension point. -/
def shutdownTwice (sig1 sig2 : String) (w : ShutdownWorld) :
    ShutdownRun × ShutdownRun :=
  let r1 := gracefulShutdown sig1 w false
  let r2 := gracefulShutdown sig2 w r1.2
  (r1.1, r2.1)

/-- How many times the two runs invoked the exit coordinator. -/
def exitCallCount (p : ShutdownRun × ShutdownRun) : Nat :=
  (if p.1.exitCode.isSome then 1 else 0) + (if p.2.exitCode.isSome then 1 else 0)

/-- How many times close was initiated on the HTTP server across two runs. -/
def serverCloseCount (p : ShutdownRun × ShutdownRun) : Nat :=
  (if p.1.serverCloseCalled then 1 else 0) + (if p.2.serverCloseCalled then 1 else 0)

/-- How many times close was initiated on the database across two runs. -/
def dbCloseCount (p : ShutdownRun × ShutdownRun) : Nat :=
  (if p.1.dbCloseCalled then 1 else 0) + (if p.2.dbCloseCalled then 1 else 0)

/-- Sample request metadata for concrete evaluations. -/
def sampleReq : RequestMeta :=
  ⟨"/api/users", "POST", "2026-01-01T00:00:00.000Z", "127.0.0.1", "test-agent"⟩

/-- A concrete Mongo duplicate-key failure: uniqueness violation on the
`email` field, error code 11000. -/
def dupKeyRawError : JsObject :=
  { name := some "MongoServerError", code := some (JsCode.num 11000),
    message := some "E11000 duplicate key error collection",
    keyValue := some [("email", "a@b.c")],
    errors := none, details := none, path := none, value := none,
    hasBodyField := false, isErrorInstance := true,
    isSyntaxErrorInstance := false, appPayload := none, modelName := none }

/-- A concrete Mongoose schema-validation failure with one sub-error on the
`email` field. -/
def validationRawError : JsObject :=
  { name := some "ValidationError", code := none,
    message := some "User validation failed",
    keyValue := none,
    errors := some [("email", ⟨"email", "email is required", "undefined"⟩)],
    details := none, path := none, value := none,
    hasBodyField := false, isErrorInstance := true,
    isSyntaxErrorInstance := false, appPayload := none, modelName := none }

/-- C9: classification is an idempotent pass-through on its own outputs —
a value that is already an appError is returned unchanged by fromUnknown
(and by the handler), so classifying a classification result, factory
outputs included, yields the exact same value. -/
theorem classify_idempotent_passthrough :
    (∀ (e : appError) (c : Option ErrCtx),
      appError.fromUnknown (JsValue.ofApp e) c = e) ∧
    (∀ (v : JsValue) (c c2 : Option ErrCtx),
      appError.fromUnknown (JsValue.ofApp (appError.fromUnknown v c)) c2 =
        appError.fromUnknown v c) ∧
    (∀ (e : appError) (req : RequestMeta),
      globalErrorHandler (JsValue.ofApp e) req = e) := by
  refine ⟨?_, ?_, ?_⟩
  · intro e c
    simp [appError.fromUnknown, JsValue.ofApp]
  · intro v c c2
    simp [appError.fromUnknown, JsValue.ofApp]
  · intro e req
    cases h : e.code <;> simp [globalErrorHandler, JsValue.ofApp, h]

/-- C10: classification is total and never throws — the embedding of
fromUnknown is a total function (the source body has no throwing
operation); any input that is not already an appError degrades to an
UNKNOWN / 500 / non-operational error, and an input that is not even
Error-shaped gets the fixed message "An unknown error occurred". -/
theorem classify_total_never_throws :
    (∀ (v : JsValue) (c : Option ErrCtx),
      v.isAppErrorVal = false → v.isErrorInstanceVal = false →
        appError.fromUnknown v c =
          { message := "An unknown error occurred", category := some .UNKNOWN,
            severity := .MEDIUM, statusCode := 500, context := c.getD [],
            originalError := none, isOperational := false,
            code := some "UNKNOWN_ERROR" }) ∧
    (∀ (v : JsValue) (c : Option ErrCtx), v.isAppErrorVal = false →
      (appError.fromUnknown v c).category = some .UNKNOWN ∧
      (appError.fromUnknown v c).statusCode = 500 ∧
      (appError.fromUnknown v c).isOperational = false) := by
  constructor
  · intro v c h1 h2
    cases v with
    | obj o =>
        cases hp : o.appPayload with
        | some e => simp [JsValue.isAppErrorVal, hp] at h1
        | none =>
            simp only [JsValue.isErrorInstanceVal] at h2
            simp [appError.fromUnknown, hp, h2, appError.ofParams]
    | prim s => simp [appError.fromUnknown, appError.ofParams]
  · intro v c h1
    cases v with
    | obj o =>
        cases hp : o.appPayload with
        | some e => simp [JsValue.isAppErrorVal, hp] at h1
        | none =>
            cases he : o.isErrorInstance <;>
              simp [appError.fromUnknown, hp, he, appError.ofParams]
    | prim s => simp [appError.fromUnknown, appError.ofParams]

/-- C10 witness: the thrown primitive 42 is neither an appError nor an
Error, and classifies to the fixed generic unknown error. -/
theorem classify_total_never_throws_witness :
    (JsValue.prim "42").isAppErrorVal = false ∧
    (JsValue.prim "42").isErrorInstanceVal = false ∧
    appError.fromUnknown (JsValue.prim "42") none =
      { message := "An unknown error occurred", category := some .UNKNOWN,
        severity := .MEDIUM, statusCode := 500, context := [],
        originalError := none, isOperational := false,
        code := some "UNKNOWN_ERROR" } :=
  ⟨by decide, by decide,
    classify_total_never_throws.1 (JsValue.prim "42") none (by decide) (by decide)⟩

/-- C8 counterexample: the internal factory — a programming/infrastructure
fault category — produces an error whose isOperational flag is true (the
constructor default is never overridden), contradicting the claim that
such categories carry isOperational = false. -/
theorem internal_factory_operational_cex :
    (appError.internal "Internal server error" none none).category =
        some ErrorCategory.INTERNAL_SERVER ∧
    (appError.internal "Internal server error" none none).isOperational = true ∧
    ¬ (appError.internal "Internal server error" none none).isOperational = false := by
  decide

/-- C8 (amended): every expected-failure factory (validation,
authentication, authorization, not-found, conflict, rate-limit) yields
isOperational = true; the database and internal factories, however, also
yield isOperational = true, because the constructor defaults
isOperational to true and neither overrides it; the only classifier
output with isOperational = false is fromUnknown on a value that is not
already an appError (category UNKNOWN), and it carries severity MEDIUM,
so among factory/classifier outputs isOperational = false implies
severity at least medium. -/
theorem operational_flag_by_factory :
    (∀ m c oe, (appError.validation m c oe).isOperational = true) ∧
    (∀ m c oe, (appError.authentication m c oe).isOperational = true) ∧
    (∀ m c oe, (appError.authorization m c oe).isOperational = true) ∧
    (∀ m c oe, (appError.notFound m c oe).isOperational = true) ∧
    (∀ m c oe, (appError.conflict m c oe).isOperational = true) ∧
    (∀ m c oe, (appError.rateLimit m c oe).isOperational = true) ∧
    (∀ m c oe, (appError.database m c oe).isOperational = true) ∧
    (∀ m c oe, (appError.internal m c oe).isOperational = true) ∧
    (∀ (v : JsValue) (c : Option ErrCtx), v.isAppErrorVal = false →
      (appError.fromUnknown v c).isOperational = false ∧
      (appError.fromUnknown v c).severity.atLeastMedium = true) := by
  refine ⟨fun m c oe => rfl, fun m c oe => rfl, fun m c oe => rfl,
    fun m c oe => rfl, fun m c oe => rfl, fun m c oe => rfl,
    fun m c oe => rfl, fun m c oe => rfl, ?_⟩
  intro v c h1
  cases v with
  | obj o =>
      cases hp : o.appPayload with
      | some e => simp [JsValue.isAppErrorVal, hp] at h1
      | none =>
          cases he : o.isErrorInstance <;>
            simp [appError.fromUnknown, hp, he, appError.ofParams,
              ErrorSeverity.atLeastMedium]
  | prim s => simp [appError.fromUnknown, appError.ofParams, ErrorSeverity.atLeastMedium]

/-- C8 witness: the amended theorem applied at a concrete non-appError
input (a plain thrown string). -/
theorem operational_flag_by_factory_witness :
    (JsValue.prim "boom").isAppErrorVal = false ∧
    ((appError.fromUnknown (JsValue.prim "boom") none).isOperational = false ∧
      (appError.fromUnknown (JsValue.prim "boom") none).severity.atLeastMedium = true) :=
  ⟨by decide, operational_flag_by_factory.2.2.2.2.2.2.2.2 (JsValue.prim "boom") none (by decide)⟩

/-- C6 counterexample: a concrete duplicate-key failure (code 11000, field
`email`) is classified by the handler as a 500 UNKNOWN_ERROR, not as a
409 CONFLICT_ERROR as claimed — the handler routes the formatted
duplicate-key error through the generic fromUnknown wrapper. -/
theorem duplicate_key_not_conflict_cex :
    (globalErrorHandler (.obj dupKeyRawError) sampleReq).statusCode = 500 ∧
    (globalErrorHandler (.obj dupKeyRawError) sampleReq).code = some "UNKNOWN_ERROR" ∧
    (globalErrorHandler (.obj dupKeyRawError) sampleReq).category = some .UNKNOWN ∧
    ¬ ((globalErrorHandler (.obj dupKeyRawError) sampleReq).statusCode = 409 ∧
        (globalErrorHandler (.obj dupKeyRawError) sampleReq).code = some "CONFLICT_ERROR") := by
  decide

/-- C6 (amended): for every raw failure matching the duplicate-key shape
(error code strictly equal to 11000), the handler extracts the offending
field and value and produces a 500-status UNKNOWN-category error with
code UNKNOWN_ERROR and isOperational = false whose message names the
field, the formatted duplicate-key error being preserved as the cause. -/
theorem duplicate_key_classification (o : JsObject) (req : RequestMeta)
    (f v : String) (rest : List (String × String))
    (hcode : o.code = some (JsCode.num 11000))
    (hkv : o.keyValue = some ((f, v) :: rest)) :
    globalErrorHandler (.obj o) req =
      { message := s!"Duplicate value '{v}' for field '{f}'. This value already exists."
        category := some .UNKNOWN
        severity := .MEDIUM
        statusCode := 500
        context := [("path", req.path), ("method", req.method),
          ("timestamp", req.timestamp)]
        originalError := some ⟨"DuplicateKeyError",
          s!"Duplicate value '{v}' for field '{f}'. This value already exists.", none⟩
        isOperational := false
        code := some "UNKNOWN_ERROR" } := by
  simp [globalErrorHandler, hcode, hkv, formatMongoDuplicateKeyError,
    JsError.toValue, appError.fromUnknown, appError.ofParams, JsObject.asJsError]

/-- C6 witness: the amended theorem applied at the concrete duplicate-key
failure on the `email` field. -/
theorem duplicate_key_classification_witness :
    dupKeyRawError.code = some (JsCode.num 11000) ∧
    dupKeyRawError.keyValue = some (("email", "a@b.c") :: []) ∧
    globalErrorHandler (.obj dupKeyRawError) sampleReq =
      { message := "Duplicate value 'a@b.c' for field 'email'. This value already exists."
        category := some .UNKNOWN
        severity := .MEDIUM
        statusCode := 500
        context := [("path", "/api/users"), ("method", "POST"),
          ("timestamp", "2026-01-01T00:00:00.000Z")]
        originalError := some ⟨"DuplicateKeyError",
          "Duplicate value 'a@b.c' for field 'email'. This value already exists.", none⟩
        isOperational := false
        code := some "UNKNOWN_ERROR" } :=
  ⟨by decide, by decide,
    duplicate_key_classification dupKeyRawError sampleReq "email" "a@b.c" []
      (by decide) (by decide)⟩

/-- C7 counterexample: a concrete Mongoose schema-validation failure is
classified by the handler as UNKNOWN / 500 with the flattened entries on
the wrapped cause, not as a validation / 400 error with the entries as
context, as claimed. -/
theorem validation_error_not_validation_cex :
    (globalErrorHandler (.obj validationRawError) sampleReq).category = some .UNKNOWN ∧
    (globalErrorHandler (.obj validationRawError) sampleReq).statusCode = 500 ∧
    (globalErrorHandler (.obj validationRawError) sampleReq).context =
      [("path", "/api/users"), ("method", "POST"),
        ("timestamp", "2026-01-01T00:00:00.000Z")] ∧
    ¬ ((globalErrorHandler (.obj validationRawError) sampleReq).category =
          some .VALIDATION ∧
        (globalErrorHandler (.obj validationRawError) sampleReq).statusCode = 400) := by
  decide

/-- C7 (amended): for every raw failure matching the store's
schema-validation shape (name ValidationError, no duplicate-key code),
the handler flattens every sub-error into a list of {field, message,
value} entries — but attaches them as the `details` of the intermediate
formatted error, preserved via the wrapped cause, not as context — and
the resulting error has category UNKNOWN, status 500 and
isOperational = false, its context being the request metadata. -/
theorem validation_error_classification (o : JsObject) (req : RequestMeta)
    (hname : o.name = some "ValidationError")
    (hcode : o.code = none) :
    globalErrorHandler (.obj o) req =
      { message := "Validation failed"
        category := some .UNKNOWN
        severity := .MEDIUM
        statusCode := 500
        context := [("path", req.path), ("method", req.method),
          ("timestamp", req.timestamp)]
        originalError := some ⟨"ValidationError", "Validation failed",
          some ((o.errors.getD []).map fun p =>
            ValidationErrorDetail.mk p.2.path p.2.message p.2.value)⟩
        isOperational := false
        code := some "UNKNOWN_ERROR" } := by
  simp [globalErrorHandler, hname, hcode, formatMongoValidationError,
    JsError.toValue, appError.fromUnknown, appError.ofParams, JsObject.asJsError]

/-- C7 witness: the amended theorem applied at the concrete
schema-validation failure with one sub-error on the `email` field. -/
theorem validation_error_classification_witness :
    validationRawError.name = some "ValidationError" ∧
    validationRawError.code = none ∧
    globalErrorHandler (.obj validationRawError) sampleReq =
      { message := "Validation failed"
        category := some .UNKNOWN
        severity := .MEDIUM
        statusCode := 500
        context := [("path", "/api/users"), ("method", "POST"),
          ("timestamp", "2026-01-01T00:00:00.000Z")]
        originalError := some ⟨"ValidationError", "Validation failed",
          some [⟨"email", "email is required", "undefined"⟩]⟩
        isOperational := false
        code := some "UNKNOWN_ERROR" } :=
  ⟨by decide, by decide,
    validation_error_classification validationRawError sampleReq
      (by decide) (by decide)⟩

/-- Helper: the attempt count recorded by a classified connection error is
the 1-based attempt index for every shape except the authentication one,
whose constructor receives no retry index. -/
theorem classify_attemptCount (e : RawDbError) (r : Nat) :
    (classifyDatabaseError e r).attemptCount =
      if e.isAuthShaped = true then none else some (r + 1) := by
  cases e with
  | mongooseErr nm code msg =>
      by_cases h3 : nm = "MongoServerError" ∧ code = some 18
      · obtain ⟨h3a, h3b⟩ := h3
        subst h3a
        subst h3b
        simp [classifyDatabaseError, RawDbError.isAuthShaped, DatabaseAuthError]
      · by_cases h1 : nm = "MongoServerSelectionError" ∨ nm = "MongoTimeoutError"
        · rcases h1 with h | h <;> subst h <;>
            simp [classifyDatabaseError, RawDbError.isAuthShaped,
              DatabaseTimeoutError, h3]
        · by_cases h2 : nm = "MongoNetworkError"
          · subst h2
            simp [classifyDatabaseError, RawDbError.isAuthShaped,
              DatabaseConnectionError]
          · simp [classifyDatabaseError, RawDbError.isAuthShaped, h1, h2, h3,
              DatabaseConnectionError]
  | plainErr m =>
      simp [classifyDatabaseError, RawDbError.isAuthShaped, DatabaseConnectionError]
  | nonError s =>
      simp [classifyDatabaseError, RawDbError.isAuthShaped, DatabaseConnectionError]

/-- C1 counterexample: with every attempt failing as an authentication
error (MongoServerError, code 18), connect still makes 5 attempts and
sleeps 2000, 4000, 8000, 10000 ms, but the raised error carries no
attempt count at all — classifyDatabaseError constructs DatabaseAuthError
from the message alone, without the retry index — so its context attempt
count is not 5 as claimed. -/
theorem connect_auth_attempt_count_cex :
    (connectDatabase fun _ =>
        some (RawDbError.mongooseErr "MongoServerError" (some 18) "bad credentials")).threw =
      some (DatabaseAuthError "Database authentication failed: bad credentials") ∧
    (DatabaseAuthError "Database authentication failed: bad credentials").attemptCount
      = none ∧
    ¬ (DatabaseAuthError "Database authentication failed: bad credentials").attemptCount
      = some 5 := by
  decide

/-- C1 (amended): whatever the failure shape of each attempt, when every
attempt fails connect performs exactly 5 sequential attempts, sleeps
2000, 4000, 8000 and 10000 ms between attempts 1-4 and does not sleep
after attempt 5, retries authentication failures identically to the
others (no fast-fail short-circuit), and raises the last classified
error; that error's context attempt count equals 5 for the timeout,
network, generic and non-error shapes, while the authentication shape's
error carries no attempt count (its constructor is given no retry
index). -/
theorem connect_exhausts_five_attempts (raw : Nat → RawDbError) :
    (connectDatabase fun i => some (raw i)).attemptsMade = 5 ∧
    (connectDatabase fun i => some (raw i)).sleeps = [2000, 4000, 8000, 10000] ∧
    (connectDatabase fun i => some (raw i)).threw =
      some (classifyDatabaseError (raw 4) 4) ∧
    (classifyDatabaseError (raw 4) 4).attemptCount =
      (if (raw 4).isAuthShaped = true then none else some 5) := by
  refine ⟨?_, ?_, ?_, ?_⟩ <;>
    simp [connectDatabase, connectGo, classify_attemptCount]

/-- World with no registered closers: the HTTP server is not listening and
the database is already disconnected. -/
def zeroCloserWorld : ShutdownWorld :=
  { serverListening := false, dbConnected := false,
    serverClose := ⟨0, none⟩, dbClose := ⟨0, none⟩, shutdownTimeoutMs := 10000 }

/-- World where both closers are registered, the HTTP server close fails
fast and the database close succeeds, both well before the deadline. -/
def failWorld : ShutdownWorld :=
  { serverListening := true, dbConnected := true,
    serverClose := ⟨5, some "close boom"⟩, dbClose := ⟨7, none⟩,
    shutdownTimeoutMs := 10000 }

/-- World where the database close never settles before the configured
deadline (it would settle at 20000 ms against a 10000 ms deadline) while
the HTTP server close succeeds quickly. -/
def slowWorld : ShutdownWorld :=
  { serverListening := true, dbConnected := true,
    serverClose := ⟨3, none⟩, dbClose := ⟨20000, none⟩,
    shutdownTimeoutMs := 10000 }

/-- C2 (code divergence): with zero registered closers the sequence does
not transition to Completed and does not exit 0 — it starts the deadline
timer first, then logs "No active connections to close" and returns
early, never invoking the exit coordinator and never clearing the
already-started timer. -/
theorem shutdown_zero_closers_run :
    (gracefulShutdown "SIGTERM" zeroCloserWorld false).1 =
      { outcome := .earlyReturn
        logs := ["SIGTERM received, initiating graceful shutdown...",
          "No active connections to close"]
        timerStarted := true
        timerCleared := false
        serverCloseCalled := false
        dbCloseCalled := false
        exitCode := none } := by
  decide

/-- C3: when at least one registered closer fails and every closer settles
before the deadline, the run waits for all of them (the settled branch is
taken only once the latest closer has settled), reaches the Failed
terminal state, logs exactly one aggregated error message enumerating
exactly the failed closers' messages, clears the timer, and exits 1. -/
theorem shutdown_failed_aggregates (signal : String) (w : ShutdownWorld)
    (hsettle : allSettledAt w < w.shutdownTimeoutMs)
    (hfail : failedCloserMessages w ≠ []) :
    (gracefulShutdown signal w false).1.outcome = .failed ∧
    (gracefulShutdown signal w false).1.exitCode = some 1 ∧
    (gracefulShutdown signal w false).1.logs =
      [s!"{signal} received, initiating graceful shutdown...",
        "Error during shutdown: " ++ ("Shutdown completed with " ++
          toString (failedCloserMessages w).length ++ " error(s): " ++
          String.intercalate ", " (failedCloserMessages w)),
        "Process exiting with code: 1", "Application terminated with errors"] ∧
    (gracefulShutdown signal w false).1.serverCloseCalled = w.serverListening ∧
    (gracefulShutdown signal w false).1.dbCloseCalled = w.dbConnected ∧
    (gracefulShutdown signal w false).1.timerCleared = true := by
  have hcl : ¬ registeredClosers w = [] := by
    intro h
    exact hfail (by simp [failedCloserMessages, h])
  have hnt : ¬ w.shutdownTimeoutMs < allSettledAt w := by omega
  refine ⟨?_, ?_, ?_, ?_, ?_, ?_⟩ <;>
    simp [gracefulShutdown, hcl, hnt, hfail]

/-- C3 witness: the theorem applied to the world where the server close
fails with "close boom" at instant 5 and the database close succeeds at
instant 7, against a 10000 ms deadline. -/
theorem shutdown_failed_aggregates_witness :
    allSettledAt failWorld < failWorld.shutdownTimeoutMs ∧
    failedCloserMessages failWorld ≠ [] ∧
    ((gracefulShutdown "SIGTERM" failWorld false).1.outcome = .failed ∧
      (gracefulShutdown "SIGTERM" failWorld false).1.exitCode = some 1 ∧
      (gracefulShutdown "SIGTERM" failWorld false).1.logs =
        ["SIGTERM received, initiating graceful shutdown...",
          "Error during shutdown: " ++ ("Shutdown completed with " ++
            toString (failedCloserMessages failWorld).length ++ " error(s): " ++
            String.intercalate ", " (failedCloserMessages failWorld)),
          "Process exiting with code: 1", "Application terminated with errors"] ∧
      (gracefulShutdown "SIGTERM" failWorld false).1.serverCloseCalled =
        failWorld.serverListening ∧
      (gracefulShutdown "SIGTERM" failWorld false).1.dbCloseCalled =
        failWorld.dbConnected ∧
      (gracefulShutdown "SIGTERM" failWorld false).1.timerCleared = true) :=
  ⟨by decide, by decide,
    shutdown_failed_aggregates "SIGTERM" failWorld (by decide) (by decide)⟩

/-- C4: when the deadline fires before all closers have settled, the run
reaches the TimedOut terminal state and exits 1 regardless of the
closers' outcomes (their failure messages are universally quantified in
the world); close was initiated on every registered closer and the model
carries no interruption effect — the in-flight closes are merely no
longer awaited. -/
theorem shutdown_deadline_timeout (signal : String) (w : ShutdownWorld)
    (hne : registeredClosers w ≠ [])
    (hdl : w.shutdownTimeoutMs < allSettledAt w) :
    (gracefulShutdown signal w false).1.outcome = .timedOut ∧
    (gracefulShutdown signal w false).1.exitCode = some 1 ∧
    (gracefulShutdown signal w false).1.serverCloseCalled = w.serverListening ∧
    (gracefulShutdown signal w false).1.dbCloseCalled = w.dbConnected ∧
    (gracefulShutdown signal w false).1.timerCleared = true := by
  refine ⟨?_, ?_, ?_, ?_, ?_⟩ <;> simp [gracefulShutdown, hne, hdl]

/-- C4 witness: the theorem applied to the world whose database close
settles only at instant 20000 against a 10000 ms deadline. -/
theorem shutdown_deadline_timeout_witness :
    registeredClosers slowWorld ≠ [] ∧
    slowWorld.shutdownTimeoutMs < allSettledAt slowWorld ∧
    ((gracefulShutdown "SIGINT" slowWorld false).1.outcome = .timedOut ∧
      (gracefulShutdown "SIGINT" slowWorld false).1.exitCode = some 1 ∧
      (gracefulShutdown "SIGINT" slowWorld false).1.serverCloseCalled =
        slowWorld.serverListening ∧
      (gracefulShutdown "SIGINT" slowWorld false).1.dbCloseCalled =
        slowWorld.dbConnected ∧
      (gracefulShutdown "SIGINT" slowWorld false).1.timerCleared = true) :=
  ⟨by decide, by decide,
    shutdown_deadline_timeout "SIGINT" slowWorld (by decide) (by decide)⟩

/-- C5 counterexample: with zero registered closers, triggering shutdown
twice produces zero exit-coordinator calls, not exactly one as claimed —
the zero-closer path returns without ever invoking the exit
coordinator. -/
theorem double_trigger_exit_count_cex :
    exitCallCount (shutdownTwice "SIGTERM" "SIGINT" zeroCloserWorld) = 0 ∧
    ¬ exitCallCount (shutdownTwice "SIGTERM" "SIGINT" zeroCloserWorld) = 1 := by
  decide

/-- C5 (amended): at most one shutdown sequence is ever active — the
second trigger is a no-op that only logs, never re-enters the sequence,
and the pair of triggers produces at most one exit-coordinator call
(exactly one whenever at least one closer is registered) and at most one
close call per registered resource. -/
theorem second_trigger_noop (sig1 sig2 : String) (w : ShutdownWorld) :
    (shutdownTwice sig1 sig2 w).2 =
      { outcome := .ignored
        logs := [s!"Shutdown already in progress, ignoring {sig2}"]
        timerStarted := false
        timerCleared := false
        serverCloseCalled := false
        dbCloseCalled := false
        exitCode := none } ∧
    exitCallCount (shutdownTwice sig1 sig2 w) ≤ 1 ∧
    serverCloseCount (shutdownTwice sig1 sig2 w) ≤ 1 ∧
    dbCloseCount (shutdownTwice sig1 sig2 w) ≤ 1 ∧
    (registeredClosers w ≠ [] →
      exitCallCount (shutdownTwice sig1 sig2 w) = 1) := by
  have hflag : (gracefulShutdown sig1 w false).2 = true := by
    simp only [gracefulShutdown]
    split_ifs <;> rfl
  have hsecond : (shutdownTwice sig1 sig2 w).2 =
      { outcome := .ignored
        logs := [s!"Shutdown already in progress, ignoring {sig2}"]
        timerStarted := false
        timerCleared := false
        serverCloseCalled := false
        dbCloseCalled := false
        exitCode := none } := by
    simp only [shutdownTwice, hflag]
    rfl
  refine ⟨hsecond, ?_, ?_, ?_, ?_⟩
  · simp only [exitCallCount, hsecond]
    split_ifs <;> simp_all
  · simp only [serverCloseCount, hsecond]
    split_ifs <;> simp_all
  · simp only [dbCloseCount, hsecond]
    split_ifs <;> simp_all
  · intro hne
    have h1 : ((shutdownTwice sig1 sig2 w).1.exitCode).isSome = true := by
      simp only [shutdownTwice, gracefulShutdown]
      split_ifs <;> simp_all
    simp only [exitCallCount, hsecond, h1]
    simp

/-- C5 witness: the amended theorem applied to the world with both
closers registered (one failing, one succeeding). -/
theorem second_trigger_noop_witness :
    (shutdownTwice "SIGTERM" "SIGINT" failWorld).2 =
      { outcome := .ignored
        logs := ["Shutdown already in progress, ignoring SIGINT"]
        timerStarted := false
        timerCleared := false
        serverCloseCalled := false
        dbCloseCalled := false
        exitCode := none } ∧
    exitCallCount (shutdownTwice "SIGTERM" "SIGINT" failWorld) ≤ 1 ∧
    registeredClosers failWorld ≠ [] ∧
    exitCallCount (shutdownTwice "SIGTERM" "SIGINT" failWorld) = 1 := by
  obtain ⟨a, b, _, _, e⟩ := second_trigger_noop "SIGTERM" "SIGINT" failWorld
  exact ⟨a, b, by decide, e (by decide)⟩
